import Mathlib

/-!
Verification of the geometry-normalization pipeline of the
`geojson_to_superset` repository (files `geojson_to_excel_for_superset.py`
and `app.py`).

The embedding is shallow: shapely geometries become an inductive `Geom`
over integer coordinate pairs (coordinates are opaque data carried through
the pipeline), Python floats used for tolerances become `Rat`, the
`while` loop of `adaptive_polygon_simplify` becomes structural recursion
on the remaining iteration budget, and Python exceptions become
`Except String`.  External collaborators (the pyproj coordinate
transform, shapely's `simplify` primitive and Python's `"{:.0e}"` float
formatting) are parameters, bundled in the `Externals` structure.
-/

set_option autoImplicit false

/-- Coordinate pair of a geometry vertex.  The pipeline never computes with
coordinate values; they are opaque payload, modelled as integer pairs. -/
abbrev Coord := Int × Int

/-- Data of a shapely `Polygon`: the exterior ring plus the interior rings
(holes), each ring an ordered coordinate list (closing vertex stored as in
the source data). -/
structure PolyData where
  exterior : List Coord
  interiors : List (List Coord)
deriving DecidableEq

/-- Shapely geometry kinds that reach the pipeline: `Polygon`,
`MultiPolygon`, and non-polygonal kinds (`Point`, `LineString`) standing
for everything `total_coords_count` treats as vertex count 0. -/
inductive Geom where
  | polygon (data : PolyData)
  | multiPolygon (parts : List PolyData)
  | point (p : Coord)
  | lineString (coords : List Coord)
deriving DecidableEq

/-- Embedding of `total_coords_count` (both files): for a `Polygon`, the
sum of the lengths of the exterior ring and all interior rings; for any
other geometry, 0. -/
def total_coords_count : Geom → Nat
  | Geom.polygon d => d.exterior.length + (d.interiors.map List.length).sum
  | _ => 0

/-- Default `target_points` argument of `adaptive_polygon_simplify`. -/
def target_points_default : Nat := 780

/-- Default `max_iterations` argument of `adaptive_polygon_simplify`. -/
def max_iterations_default : Nat := 300

/-- Embedding of the `while` loop of `adaptive_polygon_simplify`:
`while total_coords_count(simplified) > target and iteration < max_iterations`.
The remaining iteration budget (`max_iterations - iteration`) is the
recursion fuel; the result carries the final tolerance, the final
candidate, and the number of loop iterations executed.  `simplify` is the
external shapely primitive `geom.simplify(tol, preserve_topology=True)`;
note that each call applies it to `geom`, the original polygon, never to
the previous candidate.  The error ratio `total_coords_count(simplified) /
target_points` is Python float division, modelled in `Rat`. -/
def simplifyLoop (simplify : Geom → Rat → Geom) (geom : Geom) (target_points : Nat) :
    Rat → Geom → Nat → Rat × Geom × Nat
  | tolerance, simplified, 0 => (tolerance, simplified, 0)
  | tolerance, simplified, fuel + 1 =>
    if target_points < total_coords_count simplified then
      let tol2 := tolerance * min ((total_coords_count simplified : Rat) / (target_points : Rat)) 2
      let result := simplifyLoop simplify geom target_points tol2 (simplify geom tol2) fuel
      (result.1, result.2.1, result.2.2 + 1)
    else
      (tolerance, simplified, 0)

/-- Result tuple of `adaptive_polygon_simplify`:
`(simplified, tolerance, original, simplified_n)`. -/
structure SimpResult where
  geom : Geom
  tolerance : Rat
  original : Nat
  simplified_n : Nat
deriving DecidableEq

/-- Embedding of `adaptive_polygon_simplify` (identical in both files).
If the original vertex count is at most `target_points` the geometry is
returned unchanged with tolerance `0.0`; otherwise the tolerance starts at
`1e-10`, a first candidate is computed, and the loop escalates the
tolerance until the candidate fits the budget or the iteration cap is
reached. -/
def adaptive_polygon_simplify (simplify : Geom → Rat → Geom) (geom : Geom)
    (target_points : Nat) (max_iterations : Nat) : SimpResult :=
  let original := total_coords_count geom
  if original ≤ target_points then
    ⟨geom, 0, original, original⟩
  else
    let tolerance : Rat := 1 / 10 ^ 10
    let simplified := simplify geom tolerance
    let result := simplifyLoop simplify geom target_points tolerance simplified max_iterations
    ⟨result.2.1, result.1, original, total_coords_count result.2.1⟩

/-- External collaborators of the pipeline, passed as parameters: the
pyproj coordinate transform (`transformer.transform`), shapely's
`geom.simplify(tolerance, preserve_topology=True)`, and Python's
`f"{tol:.0e}"` scientific-notation formatting of a float. -/
structure Externals where
  transform : Coord → Coord
  simplify : Geom → Rat → Geom
  fmtTol : Rat → String

/-- Embedding of `reproject` / `shapely.ops.transform`: apply the
coordinate transform to every vertex, preserving the geometry's structure
(kind, ring structure, part order). -/
def reproject (tr : Coord → Coord) : Geom → Geom
  | Geom.polygon d => Geom.polygon ⟨d.exterior.map tr, d.interiors.map (List.map tr)⟩
  | Geom.multiPolygon ds =>
      Geom.multiPolygon (ds.map fun d => ⟨d.exterior.map tr, d.interiors.map (List.map tr)⟩)
  | Geom.point p => Geom.point (tr p)
  | Geom.lineString cs => Geom.lineString (cs.map tr)

/-- GeoJSON-level geometry value of a feature that is present and
non-null: either a well-formed payload (decoded by `shape`) or a malformed
one on which `shape` raises with the given message. -/
inductive GeomPayload where
  | valid (g : Geom)
  | malformed (msg : String)
deriving DecidableEq

/-- The `"geometry"` entry of a raw feature: key absent, key present with
a null value, or a payload. -/
inductive GeomField where
  | missing
  | null
  | payload (p : GeomPayload)
deriving DecidableEq

/-- The `"properties"` entry of a raw feature: key absent, key present
with a null value, or an attribute mapping (modelled as an association
list). -/
inductive PropsField where
  | missing
  | null
  | props (ps : List (String × String))
deriving DecidableEq

/-- A raw input feature as both pipelines receive it from fiona. -/
structure Feature where
  geometry : GeomField
  properties : PropsField
deriving DecidableEq

/-- Embedding of shapely's `shape` on a present, non-null geometry value:
decodes a valid payload, raises on a malformed one. -/
def shape : GeomPayload → Except String Geom
  | GeomPayload.valid g => Except.ok g
  | GeomPayload.malformed m => Except.error m

/-- Script pipeline's `dict(feature["properties"])`: raises a `KeyError`
when the key is missing and a `TypeError` on `dict(None)`. -/
def lookupProps : PropsField → Except String (List (String × String))
  | PropsField.missing => Except.error "KeyError: properties"
  | PropsField.null => Except.error "TypeError: dict(None)"
  | PropsField.props ps => Except.ok ps

/-- Script pipeline's `shape(feature["geometry"])`: raises a `KeyError`
when the key is missing, raises inside `shape` on a null value (the script
has no null-geometry guard), and otherwise decodes via `shape`. -/
def lookupGeom : GeomField → Except String Geom
  | GeomField.missing => Except.error "KeyError: geometry"
  | GeomField.null => Except.error "AttributeError: shape(None)"
  | GeomField.payload p => shape p

/-- One row of the output table: the feature's attributes plus the two
synthesized columns `geometry` (compact serialized JSON text) and
`simplification_info`. -/
structure Record where
  props : List (String × String)
  geometry : String
  simplification_info : String
deriving DecidableEq

/-- One entry of the output `simplified_features` list:
`{"type": "Feature", "geometry": geom_json, "properties": props}`; the
geometry is kept structural (the model of `mapping` is the identity on
`Geom`). -/
structure OutFeature where
  geometry : Geom
  properties : List (String × String)
deriving DecidableEq

/-- Compact JSON text of a coordinate pair. -/
def dumpCoord (p : Coord) : String :=
  "[" ++ toString p.1 ++ "," ++ toString p.2 ++ "]"

/-- Compact JSON text of a ring. -/
def dumpRing (r : List Coord) : String :=
  "[" ++ String.intercalate "," (r.map dumpCoord) ++ "]"

/-- Compact JSON text of a polygon's coordinate array. -/
def dumpPolyCoords (d : PolyData) : String :=
  "[" ++ String.intercalate "," ((d.exterior :: d.interiors).map dumpRing) ++ "]"

/-- Model of `mapping(geom)` followed by compact JSON rendering of the
geometry object. -/
def dumpGeomJson : Geom → String
  | Geom.polygon d =>
      "\x7b\"type\":\"Polygon\",\"coordinates\":" ++ dumpPolyCoords d ++ "\x7d"
  | Geom.multiPolygon ds =>
      "\x7b\"type\":\"MultiPolygon\",\"coordinates\":[" ++
        String.intercalate "," (ds.map dumpPolyCoords) ++ "]\x7d"
  | Geom.point p =>
      "\x7b\"type\":\"Point\",\"coordinates\":" ++ dumpCoord p ++ "\x7d"
  | Geom.lineString cs =>
      "\x7b\"type\":\"LineString\",\"coordinates\":" ++ dumpRing cs ++ "\x7d"

/-- Model of `json.dumps({"type": "Feature", "geometry": geom_json},
ensure_ascii=False, separators=(",", ":"))`: the compact serialized text
stored in the record's `geometry` column. -/
def dumpFeatureNoProps (g : Geom) : String :=
  "\x7b\"type\":\"Feature\",\"geometry\":" ++ dumpGeomJson g ++ "\x7d"

/-- Embedding of the `simplification_info` expression (both files):
`f"{orig_pts}→{simp_pts} points (tolérance={tol:.0e})" if tol > 0 else
"Aucune simplification"`. -/
def simplificationInfo (fmt : Rat → String) (orig_pts simp_pts : Nat) (tol : Rat) : String :=
  if 0 < tol then
    toString orig_pts ++ "→" ++ toString simp_pts ++ " points (tolérance=" ++ fmt tol ++ ")"
  else
    "Aucune simplification"

/-- One iteration of the inner `for poly in polys` loop (identical in both
files): simplify the part adaptively with the default budget and cap, and
build the output record and the simplified output feature from the same
`geom_json`. -/
def processPoly (ext : Externals) (props : List (String × String)) (poly : Geom) :
    Record × OutFeature :=
  let result := adaptive_polygon_simplify ext.simplify poly target_points_default max_iterations_default
  let geom_json := result.geom
  (⟨props, dumpFeatureNoProps geom_json,
      simplificationInfo ext.fmtTol result.original result.simplified_n result.tolerance⟩,
   ⟨geom_json, props⟩)

/-- The whole inner loop: the records and simplified features appended for
a list of parts, in part order. -/
def processPolys (ext : Externals) (props : List (String × String)) (polys : List Geom) :
    List Record × List OutFeature :=
  (polys.map fun p => (processPoly ext props p).1,
   polys.map fun p => (processPoly ext props p).2)

/-- The script's decomposition step (lines 89-95): a `MultiPolygon` is
exploded into its parts, a `Polygon` becomes a singleton list, and any
other geometry kind yields `none`, standing for the `continue` that skips
the feature. -/
def scriptPolys : Geom → Option (List Geom)
  | Geom.multiPolygon parts => some (parts.map Geom.polygon)
  | Geom.polygon d => some [Geom.polygon d]
  | _ => none

/-- Per-feature body of `geojson_to_excel_with_exploded_multipolygons`
(`geojson_to_excel_for_superset.py`, lines 83-130).  There is no
try/except around it: any raised error propagates as `Except.error`. -/
def processScriptFeature (ext : Externals) (f : Option Feature) :
    Except String (List Record × List OutFeature) :=
  match f with
  | none => Except.error "TypeError: feature is None"
  | some feat =>
    match lookupProps feat.properties with
    | Except.error m => Except.error m
    | Except.ok props =>
      match lookupGeom feat.geometry with
      | Except.error m => Except.error m
      | Except.ok g0 =>
        match scriptPolys (reproject ext.transform g0) with
        | some polys => Except.ok (processPolys ext props polys)
        | none => Except.ok ([], [])

/-- The script pipeline's feature loop: contributions are appended in
feature order; an uncaught error aborts the whole function, so no partial
output survives it. -/
def runScript (ext : Externals) : List (Option Feature) → Except String (List Record × List OutFeature)
  | [] => Except.ok ([], [])
  | f :: fs =>
    match processScriptFeature ext f with
    | Except.error m => Except.error m
    | Except.ok a =>
      match runScript ext fs with
      | Except.error m => Except.error m
      | Except.ok b => Except.ok (a.1 ++ b.1, a.2 ++ b.2)

/-- Messages emitted by the app pipeline (`st.warning` / `st.error`),
each attributed to the feature index it concerns. -/
inductive Msg where
  | emptyFeature (i : Nat)
  | missingGeometryKey (i : Nat)
  | missingPropertiesKey (i : Nat)
  | nullGeometry (i : Nat)
  | emptyProperties (i : Nat)
  | featureError (i : Nat) (msg : String)
deriving DecidableEq

/-- App pipeline's `raw_props = feature.get("properties") or \x7b\x7d`:
a falsy (null or absent) value becomes the empty mapping. -/
def appProps : PropsField → List (String × String)
  | PropsField.props ps => ps
  | _ => []

/-- Truth of `not feature.get("properties")`: the properties entry is
falsy when it is absent, null, or the empty mapping. -/
def propsFalsy : PropsField → Bool
  | PropsField.props ps => ps.isEmpty
  | _ => true

/-- The app's decomposition step (`app.py`, line 127: `polys =
list(geom.geoms) if isinstance(geom, MultiPolygon) else [geom]`): only a
`MultiPolygon` is exploded; every other geometry — including a
non-polygonal one — becomes a singleton part list. -/
def appPolys : Geom → List Geom
  | Geom.multiPolygon parts => parts.map Geom.polygon
  | g => [g]

/-- Body of the app pipeline's `try` block (`app.py`, lines 117-151):
decode the geometry with `shape` (which may raise), reproject it,
decompose it with `appPolys`, then run the inner loop.  An error anywhere
in the block surfaces as `Except.error`. -/
def tryProcess (ext : Externals) (feat : Feature) :
    Except String (List Record × List OutFeature) :=
  let props := appProps feat.properties
  match feat.geometry with
  | GeomField.payload p =>
    match shape p with
    | Except.error m => Except.error m
    | Except.ok g0 =>
      Except.ok (processPolys ext props (appPolys (reproject ext.transform g0)))
  | _ => Except.error "no geometry payload"

/-- Per-feature body of the app pipeline's feature loop (`app.py`, lines
99-153), with its guard checks in source order: a `None` feature, a
missing `"geometry"` key, a missing `"properties"` key and a null
geometry are each reported and skipped; falsy properties only produce a
warning; the `try` block's outputs are kept and a caught error is
reported against the feature's index. -/
def processAppFeature (ext : Externals) (i : Nat) (f : Option Feature) :
    List Record × List OutFeature × List Msg :=
  match f with
  | none => ([], [], [Msg.emptyFeature i])
  | some feat =>
    if feat.geometry = GeomField.missing then ([], [], [Msg.missingGeometryKey i])
    else if feat.properties = PropsField.missing then ([], [], [Msg.missingPropertiesKey i])
    else if feat.geometry = GeomField.null then ([], [], [Msg.nullGeometry i])
    else
      let warns := if propsFalsy feat.properties then [Msg.emptyProperties i] else []
      match tryProcess ext feat with
      | Except.ok a => (a.1, a.2, warns)
      | Except.error m => ([], [], warns ++ [Msg.featureError i m])

/-- The app pipeline's feature loop starting at feature index `i`:
records, simplified features and messages are appended in feature order;
a caught error never aborts the loop. -/
def runAppFrom (ext : Externals) : Nat → List (Option Feature) → List Record × List OutFeature × List Msg
  | _, [] => ([], [], [])
  | i, f :: fs =>
    let a := processAppFeature ext i f
    let b := runAppFrom ext (i + 1) fs
    (a.1 ++ b.1, a.2.1 ++ b.2.1, a.2.2 ++ b.2.2)

/-- The app pipeline's feature loop (`for i, feature in enumerate(features)`). -/
def runApp (ext : Externals) (fs : List (Option Feature)) :
    List Record × List OutFeature × List Msg :=
  runAppFrom ext 0 fs

/-- Predicate for geometries that are neither a single-part polygon nor a
multi-part polygon. -/
def isNonPolygonal : Geom → Bool
  | Geom.polygon _ => false
  | Geom.multiPolygon _ => false
  | _ => true

/-- Concrete externals for witnesses: the identity transform, a simplify
primitive that returns its input unchanged, and a fixed formatter. -/
def idExternals : Externals :=
  ⟨fun p => p, fun g _ => g, fun _ => "1e-10"⟩

/-- Concrete five-vertex square ring used by witnesses. -/
def unitSquare : PolyData :=
  ⟨[(0, 0), (1, 0), (1, 1), (0, 1), (0, 0)], []⟩

/-- Concrete well-formed polygon feature. -/
def squareFeature : Feature :=
  ⟨GeomField.payload (GeomPayload.valid (Geom.polygon unitSquare)), PropsField.props [("name", "a")]⟩

/-- Concrete point feature (non-polygonal geometry). -/
def pointFeature : Feature :=
  ⟨GeomField.payload (GeomPayload.valid (Geom.point (2, 3))), PropsField.props [("name", "p")]⟩

/-- Concrete feature whose geometry payload makes `shape` raise. -/
def badFeature : Feature :=
  ⟨GeomField.payload (GeomPayload.malformed "boom"), PropsField.props [("name", "x")]⟩

/-- Concrete feature with an explicit null geometry. -/
def nullFeature : Feature :=
  ⟨GeomField.null, PropsField.props [("name", "n")]⟩

/-- Concrete triangle ring used as a second multipolygon part. -/
def triPart : PolyData :=
  ⟨[(5, 5), (6, 5), (6, 6), (5, 5)], []⟩

/-- Concrete two-part multipolygon feature. -/
def twoPartFeature : Feature :=
  ⟨GeomField.payload (GeomPayload.valid (Geom.multiPolygon [unitSquare, triPart])),
   PropsField.props [("name", "m")]⟩

/-- Helper: the loop never returns a candidate with more vertices than the
bound `C`, provided the incoming candidate and everything the external
simplify primitive can produce from `geom` respect that bound. -/
theorem simplifyLoop_count_le (simplify : Geom → Rat → Geom) (geom : Geom)
    (target_points : Nat) (C : Nat)
    (hs : ∀ t, total_coords_count (simplify geom t) ≤ C) :
    ∀ (tol : Rat) (cand : Geom) (fuel : Nat), total_coords_count cand ≤ C →
      total_coords_count (simplifyLoop simplify geom target_points tol cand fuel).2.1 ≤ C := by
  intro tol cand fuel
  induction fuel generalizing tol cand with
  | zero => intro h; simpa [simplifyLoop] using h
  | succ n ih =>
    intro h
    by_cases hgt : target_points < total_coords_count cand
    · simp only [simplifyLoop, if_pos hgt]
      exact ih _ _ (hs _)
    · simpa [simplifyLoop, if_neg hgt] using h

/-- Helper: the loop executes at most `fuel` iterations. -/
theorem simplifyLoop_iter_le (simplify : Geom → Rat → Geom) (geom : Geom)
    (target_points : Nat) :
    ∀ (tol : Rat) (cand : Geom) (fuel : Nat),
      (simplifyLoop simplify geom target_points tol cand fuel).2.2 ≤ fuel := by
  intro tol cand fuel
  induction fuel generalizing tol cand with
  | zero => simp [simplifyLoop]
  | succ n ih =>
    by_cases hgt : target_points < total_coords_count cand
    · simp only [simplifyLoop, if_pos hgt]
      exact Nat.succ_le_succ (ih _ _)
    · simp [simplifyLoop, if_neg hgt]

/-- Helper: if the loop's final candidate is still over budget, the loop
consumed its whole fuel. -/
theorem simplifyLoop_over_budget (simplify : Geom → Rat → Geom) (geom : Geom)
    (target_points : Nat) :
    ∀ (tol : Rat) (cand : Geom) (fuel : Nat),
      target_points < total_coords_count (simplifyLoop simplify geom target_points tol cand fuel).2.1 →
      (simplifyLoop simplify geom target_points tol cand fuel).2.2 = fuel := by
  intro tol cand fuel
  induction fuel generalizing tol cand with
  | zero => intro _; simp [simplifyLoop]
  | succ n ih =>
    intro h
    by_cases hgt : target_points < total_coords_count cand
    · simp only [simplifyLoop, if_pos hgt] at h ⊢
      exact congrArg Nat.succ (ih _ _ h)
    · simp only [simplifyLoop, if_neg hgt] at h
      exact absurd h hgt

/-- C1: for every polygon whose total vertex count is at most the target
budget, `adaptive_polygon_simplify` returns the identical input geometry,
tolerance `0.0`, and equal original and resulting vertex counts. -/
theorem identity_below_budget (simplify : Geom → Rat → Geom) (geom : Geom)
    (target_points max_iterations : Nat)
    (h : total_coords_count geom ≤ target_points) :
    adaptive_polygon_simplify simplify geom target_points max_iterations =
      ⟨geom, 0, total_coords_count geom, total_coords_count geom⟩ := by
  simp [adaptive_polygon_simplify, h]

/-- Witness for C1 at the five-vertex square, budget 780, cap 300. -/
theorem identity_below_budget_witness :
    total_coords_count (Geom.polygon unitSquare) ≤ 780 ∧
    adaptive_polygon_simplify (fun g _ => g) (Geom.polygon unitSquare) 780 300 =
      ⟨Geom.polygon unitSquare, 0, total_coords_count (Geom.polygon unitSquare),
        total_coords_count (Geom.polygon unitSquare)⟩ :=
  ⟨by decide,
   identity_below_budget (fun g _ => g) (Geom.polygon unitSquare) 780 300 (by decide)⟩

/-- C2: for every input, the resulting vertex count returned by
`adaptive_polygon_simplify` is at most the original vertex count, given
the contract of the external simplify primitive (a topology-preserving
simplification never adds vertices). -/
theorem simplified_count_le_original (simplify : Geom → Rat → Geom) (geom : Geom)
    (target_points max_iterations : Nat)
    (hs : ∀ g t, total_coords_count (simplify g t) ≤ total_coords_count g) :
    (adaptive_polygon_simplify simplify geom target_points max_iterations).simplified_n ≤
      (adaptive_polygon_simplify simplify geom target_points max_iterations).original := by
  by_cases h : total_coords_count geom ≤ target_points
  · simp [adaptive_polygon_simplify, h]
  · simp only [adaptive_polygon_simplify, if_neg h]
    exact simplifyLoop_count_le simplify geom target_points (total_coords_count geom)
      (fun t => hs geom t) _ _ _ (hs geom _)

/-- Witness for C2 at a nine-vertex polygon, budget 4, cap 300, with a
vertex-count-preserving concrete simplify primitive. -/
theorem simplified_count_le_original_witness :
    (adaptive_polygon_simplify (fun g _ => g)
        (Geom.polygon ⟨[(0, 0), (1, 0), (2, 0), (3, 0), (4, 0), (4, 1), (2, 2), (0, 1), (0, 0)], []⟩)
        4 300).simplified_n ≤
      (adaptive_polygon_simplify (fun g _ => g)
        (Geom.polygon ⟨[(0, 0), (1, 0), (2, 0), (3, 0), (4, 0), (4, 1), (2, 2), (0, 1), (0, 0)], []⟩)
        4 300).original :=
  simplified_count_le_original (fun g _ => g)
    (Geom.polygon ⟨[(0, 0), (1, 0), (2, 0), (3, 0), (4, 0), (4, 1), (2, 2), (0, 1), (0, 0)], []⟩)
    4 300 (fun g _ => Nat.le_refl (total_coords_count g))

/-- C3: `adaptive_polygon_simplify` always returns: the loop executes at
most `max_iterations` iterations; a final candidate still over budget
means the cap was exhausted; and the function's value is the current
candidate of the capped loop (or the untouched input below budget) — it
is returned, never an error, even when it still exceeds the budget. -/
theorem loop_terminates_within_cap (simplify : Geom → Rat → Geom) (geom : Geom)
    (target_points max_iterations : Nat) (tol : Rat) (cand : Geom) :
    (simplifyLoop simplify geom target_points tol cand max_iterations).2.2 ≤ max_iterations ∧
    (target_points < total_coords_count
        (simplifyLoop simplify geom target_points tol cand max_iterations).2.1 →
      (simplifyLoop simplify geom target_points tol cand max_iterations).2.2 = max_iterations) ∧
    adaptive_polygon_simplify simplify geom target_points max_iterations =
      (if total_coords_count geom ≤ target_points then
        SimpResult.mk geom 0 (total_coords_count geom) (total_coords_count geom)
      else
        SimpResult.mk
          (simplifyLoop simplify geom target_points (1 / 10 ^ 10)
            (simplify geom (1 / 10 ^ 10)) max_iterations).2.1
          (simplifyLoop simplify geom target_points (1 / 10 ^ 10)
            (simplify geom (1 / 10 ^ 10)) max_iterations).1
          (total_coords_count geom)
          (total_coords_count (simplifyLoop simplify geom target_points (1 / 10 ^ 10)
            (simplify geom (1 / 10 ^ 10)) max_iterations).2.1)) := by
  refine ⟨simplifyLoop_iter_le simplify geom target_points tol cand max_iterations,
    simplifyLoop_over_budget simplify geom target_points tol cand max_iterations, ?_⟩
  by_cases h : total_coords_count geom ≤ target_points
  · simp [adaptive_polygon_simplify, h]
  · simp [adaptive_polygon_simplify, h]

/-- Witness for C3 at the five-vertex square with budget 1 and cap 3. -/
theorem loop_terminates_within_cap_witness :
    (simplifyLoop (fun g _ => g) (Geom.polygon unitSquare) 1 1 (Geom.polygon unitSquare) 3).2.2 ≤ 3 ∧
    (1 < total_coords_count
        (simplifyLoop (fun g _ => g) (Geom.polygon unitSquare) 1 1 (Geom.polygon unitSquare) 3).2.1 →
      (simplifyLoop (fun g _ => g) (Geom.polygon unitSquare) 1 1 (Geom.polygon unitSquare) 3).2.2 = 3) ∧
    adaptive_polygon_simplify (fun g _ => g) (Geom.polygon unitSquare) 1 3 =
      (if total_coords_count (Geom.polygon unitSquare) ≤ 1 then
        SimpResult.mk (Geom.polygon unitSquare) 0 (total_coords_count (Geom.polygon unitSquare))
          (total_coords_count (Geom.polygon unitSquare))
      else
        SimpResult.mk
          (simplifyLoop (fun g _ => g) (Geom.polygon unitSquare) 1 (1 / 10 ^ 10)
            (Geom.polygon unitSquare) 3).2.1
          (simplifyLoop (fun g _ => g) (Geom.polygon unitSquare) 1 (1 / 10 ^ 10)
            (Geom.polygon unitSquare) 3).1
          (total_coords_count (Geom.polygon unitSquare))
          (total_coords_count (simplifyLoop (fun g _ => g) (Geom.polygon unitSquare) 1 (1 / 10 ^ 10)
            (Geom.polygon unitSquare) 3).2.1)) :=
  loop_terminates_within_cap (fun g _ => g) (Geom.polygon unitSquare) 1 3 1 (Geom.polygon unitSquare)

/-- C4: entered only while the candidate is over budget and fuel remains,
one loop iteration multiplies the tolerance by
`min(total_coords_count(simplified) / target_points, 2)` and applies the
simplify primitive at the new tolerance to `geom`, the original input
polygon — not to the previous candidate `cand`. -/
theorem loop_step_restarts_from_original (simplify : Geom → Rat → Geom) (geom : Geom)
    (target_points : Nat) (tol : Rat) (cand : Geom) (fuel : Nat)
    (_hpos : 0 < target_points)
    (hover : target_points < total_coords_count cand) :
    simplifyLoop simplify geom target_points tol cand (fuel + 1) =
      ((simplifyLoop simplify geom target_points
          (tol * min ((total_coords_count cand : Rat) / (target_points : Rat)) 2)
          (simplify geom (tol * min ((total_coords_count cand : Rat) / (target_points : Rat)) 2))
          fuel).1,
       (simplifyLoop simplify geom target_points
          (tol * min ((total_coords_count cand : Rat) / (target_points : Rat)) 2)
          (simplify geom (tol * min ((total_coords_count cand : Rat) / (target_points : Rat)) 2))
          fuel).2.1,
       (simplifyLoop simplify geom target_points
          (tol * min ((total_coords_count cand : Rat) / (target_points : Rat)) 2)
          (simplify geom (tol * min ((total_coords_count cand : Rat) / (target_points : Rat)) 2))
          fuel).2.2 + 1) := by
  simp only [simplifyLoop, if_pos hover]

/-- Witness for C4 at the five-vertex square with budget 1, tolerance 1
and fuel 2. -/
theorem loop_step_restarts_from_original_witness :
    simplifyLoop (fun g _ => g) (Geom.polygon unitSquare) 1 1 (Geom.polygon unitSquare) (2 + 1) =
      ((simplifyLoop (fun g _ => g) (Geom.polygon unitSquare) 1
          (1 * min ((total_coords_count (Geom.polygon unitSquare) : Rat) / ((1 : Nat) : Rat)) 2)
          (Geom.polygon unitSquare) 2).1,
       (simplifyLoop (fun g _ => g) (Geom.polygon unitSquare) 1
          (1 * min ((total_coords_count (Geom.polygon unitSquare) : Rat) / ((1 : Nat) : Rat)) 2)
          (Geom.polygon unitSquare) 2).2.1,
       (simplifyLoop (fun g _ => g) (Geom.polygon unitSquare) 1
          (1 * min ((total_coords_count (Geom.polygon unitSquare) : Rat) / ((1 : Nat) : Rat)) 2)
          (Geom.polygon unitSquare) 2).2.2 + 1) :=
  loop_step_restarts_from_original (fun g _ => g) (Geom.polygon unitSquare) 1 1
    (Geom.polygon unitSquare) 2 (by decide) (by decide)

/-- Helper: a non-polygonal geometry has vertex count 0. -/
theorem total_coords_count_nonpolygonal (g : Geom) (h : isNonPolygonal g = true) :
    total_coords_count g = 0 := by
  cases g with
  | polygon d => simp [isNonPolygonal] at h
  | multiPolygon ds => simp [isNonPolygonal] at h
  | point p => rfl
  | lineString cs => rfl

/-- Helper: the app decomposer keeps a non-polygonal geometry as a
singleton part list. -/
theorem appPolys_nonpolygonal (g : Geom) (h : isNonPolygonal g = true) :
    appPolys g = [g] := by
  cases g with
  | polygon d => rfl
  | multiPolygon ds => simp [isNonPolygonal] at h
  | point p => rfl
  | lineString cs => rfl

/-- Helper: the script decomposer drops a non-polygonal geometry. -/
theorem scriptPolys_nonpolygonal (g : Geom) (h : isNonPolygonal g = true) :
    scriptPolys g = none := by
  cases g with
  | polygon d => simp [isNonPolygonal] at h
  | multiPolygon ds => simp [isNonPolygonal] at h
  | point p => rfl
  | lineString cs => rfl

/-- Helper: the app per-feature body on a feature with a valid geometry
payload and a present attribute mapping. -/
theorem processAppFeature_ok (ext : Externals) (i : Nat) (feat : Feature)
    (ps : List (String × String)) (g0 : Geom)
    (hg : feat.geometry = GeomField.payload (GeomPayload.valid g0))
    (hp : feat.properties = PropsField.props ps) :
    processAppFeature ext i (some feat) =
      ((processPolys ext ps (appPolys (reproject ext.transform g0))).1,
       (processPolys ext ps (appPolys (reproject ext.transform g0))).2,
       if ps.isEmpty then [Msg.emptyProperties i] else []) := by
  simp [processAppFeature, hg, hp, tryProcess, shape, appProps, propsFalsy]

/-- Helper: the script per-feature body on a feature with a valid
geometry payload and a present attribute mapping. -/
theorem processScriptFeature_ok (ext : Externals) (feat : Feature)
    (ps : List (String × String)) (g0 : Geom)
    (hg : feat.geometry = GeomField.payload (GeomPayload.valid g0))
    (hp : feat.properties = PropsField.props ps) :
    processScriptFeature ext (some feat) =
      (match scriptPolys (reproject ext.transform g0) with
       | some polys => Except.ok (processPolys ext ps polys)
       | none => Except.ok ([], [])) := by
  simp [processScriptFeature, hg, hp, lookupProps, lookupGeom, shape]

/-- C5 counterexample: a feature whose reprojected geometry is a point is
NOT skipped by the app pipeline — it produces one output record and one
simplified output feature. -/
theorem app_point_feature_not_skipped :
    (runApp idExternals [some pointFeature]).1.length = 1 ∧
    (runApp idExternals [some pointFeature]).2.1.length = 1 := by
  decide

/-- C5 amended: only the script pipeline skips a feature whose
reprojected geometry is neither a single-part polygon nor a multi-part
polygon (no record, no simplified feature); the app pipeline instead
routes such a geometry as a single part into the simplifier — which
returns it unchanged with tolerance 0, because its vertex count is 0 —
and emits one output record and one simplified output feature for it. -/
theorem nonpolygonal_feature_divergence (ext : Externals) (feat : Feature)
    (ps : List (String × String)) (g0 : Geom) (i : Nat)
    (hg : feat.geometry = GeomField.payload (GeomPayload.valid g0))
    (hp : feat.properties = PropsField.props ps)
    (hnp : isNonPolygonal (reproject ext.transform g0) = true) :
    processScriptFeature ext (some feat) = Except.ok ([], []) ∧
    (processAppFeature ext i (some feat)).1 =
      [(processPoly ext ps (reproject ext.transform g0)).1] ∧
    (processAppFeature ext i (some feat)).2.1 =
      [⟨reproject ext.transform g0, ps⟩] ∧
    adaptive_polygon_simplify ext.simplify (reproject ext.transform g0)
        target_points_default max_iterations_default =
      ⟨reproject ext.transform g0, 0, 0, 0⟩ := by
  have hc : total_coords_count (reproject ext.transform g0) = 0 :=
    total_coords_count_nonpolygonal _ hnp
  have hadap : adaptive_polygon_simplify ext.simplify (reproject ext.transform g0)
      target_points_default max_iterations_default =
      ⟨reproject ext.transform g0, 0, 0, 0⟩ := by
    simp [adaptive_polygon_simplify, hc, target_points_default]
  refine ⟨?_, ?_, ?_, hadap⟩
  · rw [processScriptFeature_ok ext feat ps g0 hg hp, scriptPolys_nonpolygonal _ hnp]
  · rw [processAppFeature_ok ext i feat ps g0 hg hp, appPolys_nonpolygonal _ hnp]
    rfl
  · rw [processAppFeature_ok ext i feat ps g0 hg hp, appPolys_nonpolygonal _ hnp]
    show [(processPoly ext ps (reproject ext.transform g0)).2] = _
    simp [processPoly, hadap]

/-- Witness for the amended C5 at a concrete point feature. -/
theorem nonpolygonal_feature_divergence_witness :
    processScriptFeature idExternals (some pointFeature) = Except.ok ([], []) ∧
    (processAppFeature idExternals 0 (some pointFeature)).1 =
      [(processPoly idExternals [("name", "p")] (reproject idExternals.transform (Geom.point (2, 3)))).1] ∧
    (processAppFeature idExternals 0 (some pointFeature)).2.1 =
      [⟨reproject idExternals.transform (Geom.point (2, 3)), [("name", "p")]⟩] ∧
    adaptive_polygon_simplify idExternals.simplify
        (reproject idExternals.transform (Geom.point (2, 3)))
        target_points_default max_iterations_default =
      ⟨reproject idExternals.transform (Geom.point (2, 3)), 0, 0, 0⟩ :=
  nonpolygonal_feature_divergence idExternals pointFeature [("name", "p")] (Geom.point (2, 3)) 0
    rfl rfl (by decide)

/-- Helper: the app feature loop distributes over list append, with the
feature index advancing past the first block. -/
theorem runAppFrom_append (ext : Externals) (xs ys : List (Option Feature)) :
    ∀ i, runAppFrom ext i (xs ++ ys) =
      ((runAppFrom ext i xs).1 ++ (runAppFrom ext (i + xs.length) ys).1,
       (runAppFrom ext i xs).2.1 ++ (runAppFrom ext (i + xs.length) ys).2.1,
       (runAppFrom ext i xs).2.2 ++ (runAppFrom ext (i + xs.length) ys).2.2) := by
  induction xs with
  | nil => intro i; simp [runAppFrom]
  | cons x xs ih =>
    intro i
    have hidx : i + 1 + xs.length = i + (xs.length + 1) := by omega
    simp only [List.cons_append, runAppFrom, List.append_eq, ih (i + 1), hidx,
      List.length_cons, List.append_assoc]

/-- C6 counterexample: in the script pipeline an error raised while
processing the first feature (a malformed geometry payload) is NOT
caught — the whole run aborts with the error and the valid feature that
follows produces no output at all. -/
theorem script_error_aborts_run :
    runScript idExternals [some badFeature, some squareFeature] = Except.error "boom" := by
  rfl

/-- C6 amended: in the app pipeline an error raised inside the per-feature
try block is caught, reported against that feature's index, and does not
stop the run — the records, simplified features and messages of the
features before and after it are exactly those of a run without the
failing feature; the script pipeline, by contrast, has no per-feature
handler and an error aborts the whole run. -/
theorem per_feature_error_isolation (ext : Externals) (i : Nat)
    (pre post : List (Option Feature)) (bad : Feature) (m : String)
    (h1 : bad.geometry ≠ GeomField.missing)
    (h2 : bad.properties ≠ PropsField.missing)
    (h3 : bad.geometry ≠ GeomField.null)
    (he : tryProcess ext bad = Except.error m) :
    runAppFrom ext i (pre ++ some bad :: post) =
      ((runAppFrom ext i pre).1 ++ (runAppFrom ext (i + pre.length + 1) post).1,
       (runAppFrom ext i pre).2.1 ++ (runAppFrom ext (i + pre.length + 1) post).2.1,
       (runAppFrom ext i pre).2.2 ++
         (((if propsFalsy bad.properties then [Msg.emptyProperties (i + pre.length)] else []) ++
             [Msg.featureError (i + pre.length) m]) ++
           (runAppFrom ext (i + pre.length + 1) post).2.2)) := by
  have hbad : processAppFeature ext (i + pre.length) (some bad) =
      ([], [],
       (if propsFalsy bad.properties then [Msg.emptyProperties (i + pre.length)] else []) ++
         [Msg.featureError (i + pre.length) m]) := by
    simp [processAppFeature, h1, h2, h3, he]
  rw [runAppFrom_append]
  simp only [runAppFrom, hbad, List.nil_append, List.append_assoc]

/-- Witness for the amended C6: one good feature, one failing feature,
one good feature. -/
theorem per_feature_error_isolation_witness :
    runAppFrom idExternals 0 ([some squareFeature] ++ some badFeature :: [some squareFeature]) =
      ((runAppFrom idExternals 0 [some squareFeature]).1 ++
         (runAppFrom idExternals (0 + [some squareFeature].length + 1) [some squareFeature]).1,
       (runAppFrom idExternals 0 [some squareFeature]).2.1 ++
         (runAppFrom idExternals (0 + [some squareFeature].length + 1) [some squareFeature]).2.1,
       (runAppFrom idExternals 0 [some squareFeature]).2.2 ++
         (((if propsFalsy badFeature.properties then
              [Msg.emptyProperties (0 + [some squareFeature].length)] else []) ++
             [Msg.featureError (0 + [some squareFeature].length) "boom"]) ++
           (runAppFrom idExternals (0 + [some squareFeature].length + 1) [some squareFeature]).2.2)) :=
  per_feature_error_isolation idExternals 0 [some squareFeature] [some squareFeature]
    badFeature "boom" (by decide) (by decide) (by decide) rfl

/-- C7 counterexample: in the script pipeline a feature with an explicit
null geometry is NOT skipped — `shape(None)` raises, nothing catches it,
the run aborts and the valid feature after it produces no output. -/
theorem script_null_geometry_aborts_run :
    runScript idExternals [some nullFeature, some squareFeature] =
      Except.error "AttributeError: shape(None)" := by
  rfl

/-- C7 amended: in the app pipeline a feature with an explicit null
geometry is skipped without raising, surfaced as a warning attributed to
its index, produces no record and no simplified feature, and the features
before and after it are processed exactly as without it; the script
pipeline, by contrast, raises on the null geometry and the whole run
aborts. -/
theorem null_geometry_skipped_in_app (ext : Externals) (i : Nat)
    (pre post : List (Option Feature)) (f : Feature)
    (h1 : f.geometry = GeomField.null)
    (h2 : f.properties ≠ PropsField.missing) :
    runAppFrom ext i (pre ++ some f :: post) =
      ((runAppFrom ext i pre).1 ++ (runAppFrom ext (i + pre.length + 1) post).1,
       (runAppFrom ext i pre).2.1 ++ (runAppFrom ext (i + pre.length + 1) post).2.1,
       (runAppFrom ext i pre).2.2 ++
         ([Msg.nullGeometry (i + pre.length)] ++
           (runAppFrom ext (i + pre.length + 1) post).2.2)) := by
  have hf : processAppFeature ext (i + pre.length) (some f) =
      ([], [], [Msg.nullGeometry (i + pre.length)]) := by
    simp [processAppFeature, h1, h2]
  rw [runAppFrom_append]
  simp only [runAppFrom, hf, List.nil_append, List.append_assoc]

/-- Witness for the amended C7: a null-geometry feature between two valid
features. -/
theorem null_geometry_skipped_in_app_witness :
    runAppFrom idExternals 0 ([some squareFeature] ++ some nullFeature :: [some squareFeature]) =
      ((runAppFrom idExternals 0 [some squareFeature]).1 ++
         (runAppFrom idExternals (0 + [some squareFeature].length + 1) [some squareFeature]).1,
       (runAppFrom idExternals 0 [some squareFeature]).2.1 ++
         (runAppFrom idExternals (0 + [some squareFeature].length + 1) [some squareFeature]).2.1,
       (runAppFrom idExternals 0 [some squareFeature]).2.2 ++
         ([Msg.nullGeometry (0 + [some squareFeature].length)] ++
           (runAppFrom idExternals (0 + [some squareFeature].length + 1) [some squareFeature]).2.2)) :=
  null_geometry_skipped_in_app idExternals 0 [some squareFeature] [some squareFeature]
    nullFeature rfl (by decide)

/-- C8: a feature whose reprojected geometry is a multi-part polygon of N
parts yields exactly N output records and N simplified output features in
both pipelines, one per part in the existing part order, each part
simplified independently of the others; a single-part polygon yields
exactly one of each. -/
theorem decomposition_counts (ext : Externals) (feat : Feature)
    (ps : List (String × String)) (g0 : Geom) (i : Nat)
    (hg : feat.geometry = GeomField.payload (GeomPayload.valid g0))
    (hp : feat.properties = PropsField.props ps) :
    (∀ parts, reproject ext.transform g0 = Geom.multiPolygon parts →
      processScriptFeature ext (some feat) =
        Except.ok (parts.map fun d => (processPoly ext ps (Geom.polygon d)).1,
                   parts.map fun d => (processPoly ext ps (Geom.polygon d)).2) ∧
      (processAppFeature ext i (some feat)).1 =
        (parts.map fun d => (processPoly ext ps (Geom.polygon d)).1) ∧
      (processAppFeature ext i (some feat)).2.1 =
        (parts.map fun d => (processPoly ext ps (Geom.polygon d)).2) ∧
      (parts.map fun d => (processPoly ext ps (Geom.polygon d)).1).length = parts.length ∧
      (parts.map fun d => (processPoly ext ps (Geom.polygon d)).2).length = parts.length) ∧
    (∀ d, reproject ext.transform g0 = Geom.polygon d →
      processScriptFeature ext (some feat) =
        Except.ok ([(processPoly ext ps (Geom.polygon d)).1],
                   [(processPoly ext ps (Geom.polygon d)).2]) ∧
      (processAppFeature ext i (some feat)).1 = [(processPoly ext ps (Geom.polygon d)).1] ∧
      (processAppFeature ext i (some feat)).2.1 = [(processPoly ext ps (Geom.polygon d)).2]) := by
  constructor
  · intro parts hmp
    refine ⟨?_, ?_, ?_, by simp, by simp⟩
    · rw [processScriptFeature_ok ext feat ps g0 hg hp, hmp]
      simp [scriptPolys, processPolys, List.map_map]
    · rw [processAppFeature_ok ext i feat ps g0 hg hp, hmp]
      simp [appPolys, processPolys, List.map_map]
    · rw [processAppFeature_ok ext i feat ps g0 hg hp, hmp]
      simp [appPolys, processPolys, List.map_map]
  · intro d hpoly
    refine ⟨?_, ?_, ?_⟩
    · rw [processScriptFeature_ok ext feat ps g0 hg hp, hpoly]
      rfl
    · rw [processAppFeature_ok ext i feat ps g0 hg hp, hpoly]
      rfl
    · rw [processAppFeature_ok ext i feat ps g0 hg hp, hpoly]
      rfl

/-- Witness for C8 at a concrete two-part multipolygon feature. -/
theorem decomposition_counts_witness :
    processScriptFeature idExternals (some twoPartFeature) =
      Except.ok
        ([unitSquare, triPart].map fun d =>
            (processPoly idExternals [("name", "m")] (Geom.polygon d)).1,
         [unitSquare, triPart].map fun d =>
            (processPoly idExternals [("name", "m")] (Geom.polygon d)).2) ∧
    (processAppFeature idExternals 0 (some twoPartFeature)).1 =
      ([unitSquare, triPart].map fun d =>
          (processPoly idExternals [("name", "m")] (Geom.polygon d)).1) ∧
    (processAppFeature idExternals 0 (some twoPartFeature)).2.1 =
      ([unitSquare, triPart].map fun d =>
          (processPoly idExternals [("name", "m")] (Geom.polygon d)).2) ∧
    ([unitSquare, triPart].map fun d =>
        (processPoly idExternals [("name", "m")] (Geom.polygon d)).1).length =
      [unitSquare, triPart].length ∧
    ([unitSquare, triPart].map fun d =>
        (processPoly idExternals [("name", "m")] (Geom.polygon d)).2).length =
      [unitSquare, triPart].length :=
  (decomposition_counts idExternals twoPartFeature [("name", "m")]
      (Geom.multiPolygon [unitSquare, triPart]) 0 rfl rfl).1
    [unitSquare, triPart] (by decide)

/-- Helper: a successful script per-feature result is either the empty
skip result or an inner-loop output. -/
theorem processScriptFeature_cases (ext : Externals) (f : Option Feature)
    (rs : List Record) (ss : List OutFeature)
    (h : processScriptFeature ext f = Except.ok (rs, ss)) :
    (rs = [] ∧ ss = []) ∨
    ∃ props polys, (rs, ss) = processPolys ext props polys := by
  cases f with
  | none => simp [processScriptFeature] at h
  | some feat =>
    cases hp : feat.properties with
    | missing => simp [processScriptFeature, hp, lookupProps] at h
    | null => simp [processScriptFeature, hp, lookupProps] at h
    | props ps =>
      cases hg : feat.geometry with
      | missing => simp [processScriptFeature, hp, hg, lookupProps, lookupGeom] at h
      | null => simp [processScriptFeature, hp, hg, lookupProps, lookupGeom] at h
      | payload p =>
        cases p with
        | malformed m =>
            simp [processScriptFeature, hp, hg, lookupProps, lookupGeom, shape] at h
        | valid g0 =>
          rw [processScriptFeature_ok ext feat ps g0 hg hp] at h
          cases hsp : scriptPolys (reproject ext.transform g0) with
          | none =>
            rw [hsp] at h
            have h2 := Except.ok.inj h
            exact Or.inl ⟨congrArg Prod.fst h2.symm, congrArg Prod.snd h2.symm⟩
          | some polys =>
            rw [hsp] at h
            exact Or.inr ⟨ps, polys, (Except.ok.inj h).symm⟩

/-- Helper: the record and feature lists of an app per-feature result are
either both empty or an inner-loop output. -/
theorem processAppFeature_cases (ext : Externals) (i : Nat) (f : Option Feature) :
    ((processAppFeature ext i f).1 = [] ∧ (processAppFeature ext i f).2.1 = []) ∨
    ∃ props polys,
      (processAppFeature ext i f).1 = (processPolys ext props polys).1 ∧
      (processAppFeature ext i f).2.1 = (processPolys ext props polys).2 := by
  cases f with
  | none => exact Or.inl ⟨rfl, rfl⟩
  | some feat =>
    by_cases h1 : feat.geometry = GeomField.missing
    · exact Or.inl (by simp [processAppFeature, h1])
    by_cases h2 : feat.properties = PropsField.missing
    · exact Or.inl (by simp [processAppFeature, h1, h2])
    by_cases h3 : feat.geometry = GeomField.null
    · exact Or.inl (by simp [processAppFeature, h1, h2, h3])
    cases ht : tryProcess ext feat with
    | error m => exact Or.inl (by simp [processAppFeature, h1, h2, h3, ht])
    | ok a =>
      have ha : ∃ props polys, a = processPolys ext props polys := by
        cases hg : feat.geometry with
        | missing => exact absurd hg h1
        | null => exact absurd hg h3
        | payload p =>
          cases p with
          | malformed m => simp [tryProcess, hg, shape] at ht
          | valid g0 =>
            simp only [tryProcess, hg, shape] at ht
            exact ⟨appProps feat.properties, appPolys (reproject ext.transform g0),
              (Except.ok.inj ht).symm⟩
      obtain ⟨props, polys, rfl⟩ := ha
      refine Or.inr ⟨props, polys, ?_, ?_⟩ <;>
        simp [processAppFeature, h1, h2, h3, ht]

/-- Alignment invariant between the record list and the simplified
feature list: same length and, position by position, the record's
serialized-geometry text is the compact Feature-wrapper serialization of
the simplified feature's geometry. -/
def aligned (rs : List Record) (ss : List OutFeature) : Prop :=
  rs.length = ss.length ∧
  rs.map Record.geometry = ss.map fun s => dumpFeatureNoProps s.geometry

/-- Helper: the empty output lists are aligned. -/
theorem aligned_nil : aligned [] [] :=
  ⟨rfl, rfl⟩

/-- Helper: alignment is preserved by concatenation. -/
theorem aligned_append (r1 r2 : List Record) (s1 s2 : List OutFeature)
    (h1 : aligned r1 s1) (h2 : aligned r2 s2) : aligned (r1 ++ r2) (s1 ++ s2) := by
  obtain ⟨hl1, hm1⟩ := h1
  obtain ⟨hl2, hm2⟩ := h2
  exact ⟨by simp [hl1, hl2], by simp [hm1, hm2]⟩

/-- Helper: the two lists produced by the inner loop are aligned — both
are built from the same `geom_json` of each part. -/
theorem processPolys_aligned (ext : Externals) (props : List (String × String))
    (polys : List Geom) :
    aligned (processPolys ext props polys).1 (processPolys ext props polys).2 := by
  constructor
  · simp [processPolys]
  · simp only [processPolys, List.map_map]
    rfl

/-- Helper: inversion of a successful script run on a cons cell. -/
theorem runScript_cons_ok (ext : Externals) (f : Option Feature)
    (fs : List (Option Feature)) (rs : List Record) (ss : List OutFeature)
    (h : runScript ext (f :: fs) = Except.ok (rs, ss)) :
    ∃ a b, processScriptFeature ext f = Except.ok a ∧ runScript ext fs = Except.ok b ∧
      rs = a.1 ++ b.1 ∧ ss = a.2 ++ b.2 := by
  cases heqa : processScriptFeature ext f with
  | error m => simp [runScript, heqa] at h
  | ok a =>
    cases heqb : runScript ext fs with
    | error m => simp [runScript, heqa, heqb] at h
    | ok b =>
      simp only [runScript, heqa, heqb] at h
      have h2 := Except.ok.inj h
      exact ⟨a, b, rfl, rfl, (congrArg Prod.fst h2).symm, (congrArg Prod.snd h2).symm⟩

/-- Helper: the output lists of a successful script per-feature step are
aligned. -/
theorem script_output_aligned (ext : Externals) (f : Option Feature)
    (a : List Record × List OutFeature)
    (h : processScriptFeature ext f = Except.ok a) : aligned a.1 a.2 := by
  rcases processScriptFeature_cases ext f a.1 a.2 h with ⟨e1, e2⟩ | ⟨props, polys, hpp⟩
  · rw [e1, e2]
    exact aligned_nil
  · have e1 : a.1 = (processPolys ext props polys).1 := congrArg Prod.fst hpp
    have e2 : a.2 = (processPolys ext props polys).2 := congrArg Prod.snd hpp
    rw [e1, e2]
    exact processPolys_aligned ext props polys

/-- Helper: every successful script run has aligned outputs. -/
theorem runScript_aligned (ext : Externals) :
    ∀ (fs : List (Option Feature)) (rs : List Record) (ss : List OutFeature),
      runScript ext fs = Except.ok (rs, ss) → aligned rs ss := by
  intro fs
  induction fs with
  | nil =>
    intro rs ss h
    have h2 := Except.ok.inj h
    injection h2 with e1 e2
    subst e1
    subst e2
    exact aligned_nil
  | cons f fs ih =>
    intro rs ss h
    obtain ⟨a, b, heqa, heqb, e1, e2⟩ := runScript_cons_ok ext f fs rs ss h
    subst e1
    subst e2
    exact aligned_append a.1 b.1 a.2 b.2 (script_output_aligned ext f a heqa)
      (ih b.1 b.2 heqb)

/-- Helper: the app run has aligned outputs for every start index. -/
theorem runAppFrom_aligned (ext : Externals) :
    ∀ (fs : List (Option Feature)) (i : Nat),
      aligned (runAppFrom ext i fs).1 (runAppFrom ext i fs).2.1 := by
  intro fs
  induction fs with
  | nil => intro i; exact aligned_nil
  | cons f fs ih =>
    intro i
    have hb := ih (i + 1)
    rcases processAppFeature_cases ext i f with ⟨e1, e2⟩ | ⟨props, polys, e1, e2⟩
    · show aligned ((processAppFeature ext i f).1 ++ _) ((processAppFeature ext i f).2.1 ++ _)
      rw [e1, e2]
      exact aligned_append [] _ [] _ aligned_nil hb
    · show aligned ((processAppFeature ext i f).1 ++ _) ((processAppFeature ext i f).2.1 ++ _)
      rw [e1, e2]
      exact aligned_append _ _ _ _ (processPolys_aligned ext props polys) hb

/-- Helper: every record in an inner-loop output comes from `processPoly`
applied to one of the parts. -/
theorem mem_processPolys_records (ext : Externals) (props : List (String × String))
    (polys : List Geom) (r : Record) (h : r ∈ (processPolys ext props polys).1) :
    ∃ poly, r = (processPoly ext props poly).1 := by
  simp only [processPolys, List.mem_map] at h
  obtain ⟨p, _, hp⟩ := h
  exact ⟨p, hp.symm⟩

/-- Helper: every record of a successful script run comes from
`processPoly`. -/
theorem runScript_records_from_processPoly (ext : Externals) :
    ∀ (fs : List (Option Feature)) (rs : List Record) (ss : List OutFeature) (r : Record),
      runScript ext fs = Except.ok (rs, ss) → r ∈ rs →
      ∃ props poly, r = (processPoly ext props poly).1 := by
  intro fs
  induction fs with
  | nil =>
    intro rs ss r h hr
    have h2 := Except.ok.inj h
    injection h2 with e1 e2
    subst e1
    simp at hr
  | cons f fs ih =>
    intro rs ss r h hr
    obtain ⟨a, b, heqa, heqb, e1, e2⟩ := runScript_cons_ok ext f fs rs ss h
    subst e1
    rcases List.mem_append.mp hr with hra | hrb
    · rcases processScriptFeature_cases ext f a.1 a.2 heqa with ⟨ea, _⟩ | ⟨props, polys, hpp⟩
      · rw [ea] at hra
        simp at hra
      · have ea : a.1 = (processPolys ext props polys).1 := congrArg Prod.fst hpp
        rw [ea] at hra
        obtain ⟨poly, hp⟩ := mem_processPolys_records ext props polys r hra
        exact ⟨props, poly, hp⟩
    · exact ih b.1 b.2 r heqb hrb

/-- Helper: every record of an app run comes from `processPoly`. -/
theorem runAppFrom_records_from_processPoly (ext : Externals) :
    ∀ (fs : List (Option Feature)) (i : Nat) (r : Record),
      r ∈ (runAppFrom ext i fs).1 →
      ∃ props poly, r = (processPoly ext props poly).1 := by
  intro fs
  induction fs with
  | nil => intro i r hr; simp [runAppFrom] at hr
  | cons f fs ih =>
    intro i r hr
    have hr2 : r ∈ (processAppFeature ext i f).1 ++ (runAppFrom ext (i + 1) fs).1 := hr
    rcases List.mem_append.mp hr2 with hra | hrb
    · rcases processAppFeature_cases ext i f with ⟨ea, _⟩ | ⟨props, polys, ea, _⟩
      · rw [ea] at hra
        simp at hra
      · rw [ea] at hra
        obtain ⟨poly, hp⟩ := mem_processPolys_records ext props polys r hra
        exact ⟨props, poly, hp⟩
    · exact ih (i + 1) r hrb

/-- The shape of the `simplification_info` column of a record produced for
one part: the record is an inner-loop output for some attribute mapping
and part, and its info column is the arrow-formatted summary string when
the adaptive tolerance is positive and the fixed no-simplification
sentinel otherwise. -/
def recordInfoWellFormed (ext : Externals) (r : Record) : Prop :=
  ∃ props poly,
    r = (processPoly ext props poly).1 ∧
    (0 < (adaptive_polygon_simplify ext.simplify poly
        target_points_default max_iterations_default).tolerance →
      r.simplification_info =
        toString (adaptive_polygon_simplify ext.simplify poly
            target_points_default max_iterations_default).original ++ "→" ++
          toString (adaptive_polygon_simplify ext.simplify poly
            target_points_default max_iterations_default).simplified_n ++
          " points (tolérance=" ++
          ext.fmtTol (adaptive_polygon_simplify ext.simplify poly
            target_points_default max_iterations_default).tolerance ++ ")") ∧
    ((adaptive_polygon_simplify ext.simplify poly
        target_points_default max_iterations_default).tolerance ≤ 0 →
      r.simplification_info = "Aucune simplification")

/-- Helper: every inner-loop record satisfies the info-column shape. -/
theorem processPoly_info (ext : Externals) (props : List (String × String)) (poly : Geom) :
    recordInfoWellFormed ext ((processPoly ext props poly).1) := by
  refine ⟨props, poly, rfl, ?_, ?_⟩
  · intro hpos
    show simplificationInfo _ _ _ _ = _
    rw [simplificationInfo, if_pos hpos]
  · intro hle
    show simplificationInfo _ _ _ _ = _
    rw [simplificationInfo, if_neg (not_lt.mpr hle)]

/-- C9: in both pipelines, every output record's `simplification_info`
column is the string `"<original>→<simplified> points (tolérance=<tol>)"`
exactly when the tolerance returned for its part is strictly positive, and
the fixed sentinel `"Aucune simplification"` otherwise. -/
theorem record_info_format (ext : Externals) (fs : List (Option Feature)) :
    (∀ rs ss r, runScript ext fs = Except.ok (rs, ss) → r ∈ rs →
      recordInfoWellFormed ext r) ∧
    (∀ i r, r ∈ (runAppFrom ext i fs).1 → recordInfoWellFormed ext r) := by
  constructor
  · intro rs ss r h hr
    obtain ⟨props, poly, hp⟩ := runScript_records_from_processPoly ext fs rs ss r h hr
    rw [hp]
    exact processPoly_info ext props poly
  · intro i r hr
    obtain ⟨props, poly, hp⟩ := runAppFrom_records_from_processPoly ext fs i r hr
    rw [hp]
    exact processPoly_info ext props poly

/-- Witness for C9 at a concrete one-feature app run. -/
theorem record_info_format_witness :
    recordInfoWellFormed idExternals
      (processPoly idExternals [("name", "a")] (Geom.polygon unitSquare)).1 :=
  (record_info_format idExternals [some squareFeature]).2 0
    (processPoly idExternals [("name", "a")] (Geom.polygon unitSquare)).1
    (by decide)

/-- C10: after every run of either pipeline the record list and the
simplified feature list have the same length and correspond pointwise in
order: each record's serialized geometry text is the compact
Feature-wrapper serialization of the geometry of the simplified feature
at the same index. -/
theorem records_features_aligned (ext : Externals) (fs : List (Option Feature)) :
    (∀ rs ss, runScript ext fs = Except.ok (rs, ss) → aligned rs ss) ∧
    aligned (runApp ext fs).1 (runApp ext fs).2.1 :=
  ⟨fun rs ss h => runScript_aligned ext fs rs ss h, runAppFrom_aligned ext fs 0⟩

/-- Witness for C10 at a concrete two-feature app run. -/
theorem records_features_aligned_witness :
    aligned (runApp idExternals [some squareFeature, some pointFeature]).1
      (runApp idExternals [some squareFeature, some pointFeature]).2.1 :=
  (records_features_aligned idExternals [some squareFeature, some pointFeature]).2
